import Mathlib

/-!
Shallow embedding of the hyperlight guest C-API dispatch layer
(`src/hyperlight_guest_capi/src/dispatch.rs`) and of the host-side
multi-use guest-call context (`src/hyperlight_host/src/func/call_ctx.rs`).

Collaborators of those two files that live in other crates of the
repository (`hyperlight_common`, `hyperlight_guest_bin`, the
`MultiUseSandbox` internals) are modelled from the specification; each
such definition is marked `Modelled from the spec:` in its doc comment.
-/

namespace Hyperlight

/-- Modelled from the spec: the runtime type tags of guest-call parameters
(`hyperlight_common::flatbuffer_wrappers::function_types::ParameterType`,
not under the provided sources). -/
inductive ParameterType where
  | Int
  | UInt
  | Long
  | ULong
  | Float
  | Double
  | Bool
  | String
  | VecBytes
  deriving DecidableEq

/-- Modelled from the spec: typed parameter values of a Call Envelope
(`hyperlight_common::...::ParameterValue`, not under the provided sources).
Each value is tagged with its runtime type; float and double payloads are
abstracted as their raw bit patterns. -/
inductive ParameterValue where
  | Int (v : Int)
  | UInt (v : Nat)
  | Long (v : Int)
  | ULong (v : Nat)
  | Float (bits : Nat)
  | Double (bits : Nat)
  | Bool (v : Bool)
  | String (v : String)
  | VecBytes (v : List Nat)
  deriving DecidableEq

/-- Modelled from the spec: the `From<&ParameterValue> for ParameterType`
conversion used as `p.into()` inside `guest_dispatch_function`: each value
is mapped to its runtime type tag. -/
def ParameterValue.paramType : ParameterValue → ParameterType
  | .Int _ => .Int
  | .UInt _ => .UInt
  | .Long _ => .Long
  | .ULong _ => .ULong
  | .Float _ => .Float
  | .Double _ => .Double
  | .Bool _ => .Bool
  | .String _ => .String
  | .VecBytes _ => .VecBytes

/-- Modelled from the spec: the expected-return-type tag of a call
(`hyperlight_common::...::ReturnType`, not under the provided sources). -/
inductive ReturnType where
  | Void
  | Int
  | UInt
  | Long
  | ULong
  | Float
  | Double
  | Bool
  | String
  | VecBytes
  deriving DecidableEq

/-- Modelled from the spec: the Call Envelope
(`hyperlight_common::...::function_call::FunctionCall`, not under the
provided sources): function name, ordered list of typed parameter values
(optional, as in the source), expected return type.  We keep exactly the
fields the dispatch layer reads. -/
structure FunctionCall where
  function_name : String
  parameters : Option (List ParameterValue)
  expected_return_type : ReturnType
  deriving DecidableEq

/-- Error codes surfaced by the dispatch layer.  `GuestFunctionNotFound`
is named in the source of `guest_dispatch_function`; the other two are
modelled from the spec (`ParameterTypeMismatch`, `CallEnvelopeDecodeError`),
since the crates producing them are not under the provided sources. -/
inductive ErrorCode where
  | GuestFunctionNotFound
  | ParameterTypeMismatch
  | CallEnvelopeDecodeError
  deriving DecidableEq

/-- Modelled from the spec: a typed error code plus diagnostic message
(`hyperlight_guest::error::HyperlightGuestError`, not under the provided
sources). -/
structure HyperlightGuestError where
  kind : ErrorCode
  message : String
  deriving DecidableEq

/-- `HyperlightGuestError::new(kind, message)`. -/
def HyperlightGuestError.new (kind : ErrorCode) (message : String) :
    HyperlightGuestError :=
  { kind := kind, message := message }

/-- Modelled from the spec: a FunctionDefinition — name, ordered
parameter-type list, return type, address of the callable
(`hyperlight_guest_bin::guest_function::definition::GuestFunctionDefinition`,
not under the provided sources). -/
structure GuestFunctionDefinition where
  function_name : String
  parameter_types : List ParameterType
  return_type : ReturnType
  function_pointer : Nat
  deriving DecidableEq

/-- `GuestFunctionDefinition::new(name, params, return_type, ptr)`. -/
def GuestFunctionDefinition.new (function_name : String)
    (parameter_types : List ParameterType) (return_type : ReturnType)
    (function_pointer : Nat) : GuestFunctionDefinition :=
  { function_name := function_name, parameter_types := parameter_types,
    return_type := return_type, function_pointer := function_pointer }

/-- Printable name of a parameter type tag, used to build the diagnostic
message of a type-mismatch error. -/
def paramTypeName : ParameterType → String
  | .Int => "Int"
  | .UInt => "UInt"
  | .Long => "Long"
  | .ULong => "ULong"
  | .Float => "Float"
  | .Double => "Double"
  | .Bool => "Bool"
  | .String => "String"
  | .VecBytes => "VecBytes"

/-- Comma-separated rendering of a list of parameter types. -/
def typeListString (l : List ParameterType) : String :=
  String.intercalate ", " (l.map paramTypeName)

/-- Diagnostic message of a `ParameterTypeMismatch` error, identifying the
expected vs. received types. -/
def mismatchMessage (expected received : List ParameterType) : String :=
  "Expected parameter types " ++ typeListString expected ++
    " but got " ++ typeListString received

/-- Modelled from the spec: `GuestFunctionDefinition::verify_parameters`
(not under the provided sources) — "verify that the envelope's parameter
type sequence exactly matches the registered signature's parameter types
(same count, same order, same types) — on mismatch, fail with a
`ParameterTypeMismatch` error identifying the expected vs. received
types". -/
def GuestFunctionDefinition.verify_parameters (d : GuestFunctionDefinition)
    (received : List ParameterType) : Except HyperlightGuestError Unit :=
  if d.parameter_types = received then Except.ok ()
  else Except.error (HyperlightGuestError.new ErrorCode.ParameterTypeMismatch
    (mismatchMessage d.parameter_types received))

/-- Modelled from the spec: the Function Registry
(`hyperlight_guest_bin::guest_function::register::GuestFunctionRegister`,
not under the provided sources): a mapping name to FunctionDefinition. -/
structure GuestFunctionRegister where
  entries : List (String × GuestFunctionDefinition)
  deriving DecidableEq

/-- `GuestFunctionRegister::new()`: created empty. -/
def GuestFunctionRegister.new : GuestFunctionRegister := { entries := [] }

/-- Modelled from the spec: `register(definition)` inserts a
FunctionDefinition, overwriting any prior entry with the same name (last
registration wins — no duplicate-name error is raised). -/
def GuestFunctionRegister.register (r : GuestFunctionRegister)
    (d : GuestFunctionDefinition) : GuestFunctionRegister :=
  { entries :=
      (d.function_name, d) ::
        r.entries.filter (fun p => p.1 != d.function_name) }

/-- Modelled from the spec: `lookup(name) -> Option<FunctionDefinition>`
is a pure read (`get` in the source). -/
def GuestFunctionRegister.get (r : GuestFunctionRegister) (name : String) :
    Option GuestFunctionDefinition :=
  (r.entries.find? (fun p => p.1 == name)).map (fun p => p.2)

/-- Modelled from the spec: the C-ABI representation of one call
(`hyperlight_guest_capi::types::FfiFunctionCall`, not under the provided
sources); we keep the underlying envelope abstractly as its payload. -/
structure FfiFunctionCall where
  payload : FunctionCall
  deriving DecidableEq

/-- Modelled from the spec: `FfiFunctionCall::copy_parameters` — the guest
copies its parameters into an owned envelope. -/
def FfiFunctionCall.copy_parameters (f : FfiFunctionCall) :
    List ParameterValue :=
  f.payload.parameters.getD []

/-- Modelled from the spec: `FfiFunctionCall::copy_function_name`. -/
def FfiFunctionCall.copy_function_name (f : FfiFunctionCall) : String :=
  f.payload.function_name

/-- Modelled from the spec: `FfiFunctionCall::copy_return_type`. -/
def FfiFunctionCall.copy_return_type (f : FfiFunctionCall) : ReturnType :=
  f.payload.expected_return_type

/-- Modelled from the spec: the error produced when conversion of the
envelope itself fails — "Any failure during conversion of the envelope
itself (malformed encoding, unknown type tag) fails with a
`CallEnvelopeDecodeError`". -/
def decodeError : HyperlightGuestError :=
  HyperlightGuestError.new ErrorCode.CallEnvelopeDecodeError
    "failed to convert the call envelope"

/-- Modelled from the spec: the external collaborators of
`guest_dispatch_function` that are not under the provided sources: the
guest-side registry (`REGISTERED_C_GUEST_FUNCTIONS`), the fallible
envelope conversion (`FfiFunctionCall::from_function_call`, `none`
standing for a conversion failure), the invocation of the typed callable
recovered from a registered address (`call_fn`), and the external fallback
handler (`c_guest_dispatch_function`, `none` standing for a null result). -/
structure DispatchEnv where
  registry : GuestFunctionRegister
  from_function_call : FunctionCall → Option FfiFunctionCall
  call_fn : Nat → FfiFunctionCall → List Nat
  c_guest_dispatch_function : FfiFunctionCall → Option (List Nat)

/-- Observable events of one dispatch, in order: registry lookup,
parameter-type verification, envelope conversion, invocation of a
registered function body (with its address), invocation of the fallback
handler. -/
inductive DispatchEvent where
  | lookup (name : String)
  | verify
  | decode
  | invoke (function_pointer : Nat)
  | fallback_invoke
  deriving DecidableEq

/-- The registered-function arm of `guest_dispatch_function`: verify the
envelope's parameter types against the registered signature, convert the
envelope, transmute the stored address back to a callable and invoke it. -/
def dispatchRegistered (env : DispatchEnv) (function_call : FunctionCall)
    (registered_func : GuestFunctionDefinition) :
    Except HyperlightGuestError (List Nat) × List DispatchEvent :=
  let function_call_parameter_types :=
    (function_call.parameters.getD []).map ParameterValue.paramType
  match registered_func.verify_parameters function_call_parameter_types with
  | Except.error e =>
      (Except.error e,
        [DispatchEvent.lookup function_call.function_name,
          DispatchEvent.verify])
  | Except.ok _ =>
      match env.from_function_call function_call with
      | none =>
          (Except.error decodeError,
            [DispatchEvent.lookup function_call.function_name,
              DispatchEvent.verify, DispatchEvent.decode])
      | some ffi_func_call =>
          (Except.ok
              (env.call_fn registered_func.function_pointer ffi_func_call),
            [DispatchEvent.lookup function_call.function_name,
              DispatchEvent.verify, DispatchEvent.decode,
              DispatchEvent.invoke registered_func.function_pointer])

/-- The unregistered-function arm of `guest_dispatch_function`: remember
the requested name, convert the envelope, hand it to the external fallback
`c_guest_dispatch_function`; a null result becomes a
`GuestFunctionNotFound` error carrying the name, a non-null result is
returned as-is. -/
def dispatchFallback (env : DispatchEnv) (function_call : FunctionCall) :
    Except HyperlightGuestError (List Nat) × List DispatchEvent :=
  let function_name := function_call.function_name
  match env.from_function_call function_call with
  | none =>
      (Except.error decodeError,
        [DispatchEvent.lookup function_name, DispatchEvent.decode])
  | some ffi_func_call =>
      match env.c_guest_dispatch_function ffi_func_call with
      | none =>
          (Except.error
              (HyperlightGuestError.new ErrorCode.GuestFunctionNotFound
                function_name),
            [DispatchEvent.lookup function_name, DispatchEvent.decode,
              DispatchEvent.fallback_invoke])
      | some result =>
          (Except.ok result,
            [DispatchEvent.lookup function_name, DispatchEvent.decode,
              DispatchEvent.fallback_invoke])

/-- `guest_dispatch_function` from
`src/hyperlight_guest_capi/src/dispatch.rs`, instrumented with an event
trace: look the function name up in the registry and run the registered
arm if found, the fallback arm otherwise. -/
def guest_dispatch_function (env : DispatchEnv)
    (function_call : FunctionCall) :
    Except HyperlightGuestError (List Nat) × List DispatchEvent :=
  match env.registry.get function_call.function_name with
  | some registered_func => dispatchRegistered env function_call registered_func
  | none => dispatchFallback env function_call

/-- `hl_register_function_definition` from
`src/hyperlight_guest_capi/src/dispatch.rs`: build a
`GuestFunctionDefinition` from the (already marshalled) name, parameter
list, return type and address, and register it.  The C-string conversion
and the raw `param_no`/`params_type` slice are marshalled into `String`
and `List ParameterType`. -/
def hl_register_function_definition (reg : GuestFunctionRegister)
    (function_name : String) (func_ptr : Nat)
    (params_type : List ParameterType) (return_type : ReturnType) :
    GuestFunctionRegister :=
  reg.register
    (GuestFunctionDefinition.new function_name params_type return_type
      func_ptr)

/-- Modelled from the spec: the outbound host-call primitive
`hyperlight_guest_bin::host_comm::call_host_function_without_returning_result`
(not under the provided sources) — transmits name, parameters and expected
return type to the host; the typed result is retrieved afterward through
separate accessors, so the call itself yields unit or a host-side failure
with a diagnostic string. -/
structure HostCallEnv where
  call_host_function_without_returning_result :
    String → Option (List ParameterValue) → ReturnType → Except String Unit

/-- Outcome of `hl_call_host_function`, which returns no value at the C
ABI: either a normal (unit) return to the caller, or an abort of the
program (a Rust panic) with the panic message. -/
inductive FfiCallOutcome where
  | returned
  | aborted (msg : String)
  deriving DecidableEq

/-- `hl_call_host_function` from
`src/hyperlight_guest_capi/src/dispatch.rs`: copy the parameters, name and
return type out of the `FfiFunctionCall`, perform the host call, discard
the unit result on success, and abort via `.expect("Failed to call host
function")` on failure. -/
def hl_call_host_function (env : HostCallEnv)
    (function_call : FfiFunctionCall) : FfiCallOutcome :=
  let parameters := function_call.copy_parameters
  let func_name := function_call.copy_function_name
  let return_type := function_call.copy_return_type
  match env.call_host_function_without_returning_result func_name
      (some parameters) return_type with
  | Except.ok _ => FfiCallOutcome.returned
  | Except.error _ => FfiCallOutcome.aborted "Failed to call host function"

/-! ## Host side: `MultiUseGuestCallContext` over a `MultiUseSandbox`

The `MultiUseSandbox` type and its operations live in crates that are not
under the provided sources; they are modelled from the spec.  The context
itself (`start`, `finish`, `finish_no_reset`, `call`, `map_region`) is
translated from `src/hyperlight_host/src/func/call_ctx.rs`. -/

/-- Modelled from the spec: the guest-observable memory state of a
sandbox, abstracted as raw bytes. -/
abbrev GuestMem := List Nat

/-- Modelled from the spec: the value a guest function call produces. -/
inductive ReturnValue where
  | Void
  | Val (v : ParameterValue)
  deriving DecidableEq

/-- Modelled from the spec: the behaviour of the loaded guest program —
given a function name, arguments and the current guest memory, executing
the call yields the mutated memory and a return value. -/
structure GuestProgram where
  exec : String → List ParameterValue → GuestMem → GuestMem × ReturnValue

/-- Modelled from the spec: the advisory region kind tag of a memory
region (`region_type`), ignored by the mapper itself. -/
inductive MemoryRegionType where
  | Code
  | Stack
  | Heap
  | InputData
  | OutputData
  | PageTables
  deriving DecidableEq

/-- Modelled from the spec: the backing of a memory region — anonymous
host memory or a file-backed copy-on-write mapping. -/
inductive MemoryBacking where
  | anonymousMemory
  | fileCopyOnWrite
  deriving DecidableEq

/-- Modelled from the spec: a MemoryRegion — base address, length, region
kind (advisory metadata), backing. -/
structure MemoryRegion where
  base : Nat
  len : Nat
  region_type : MemoryRegionType
  backing : MemoryBacking
  deriving DecidableEq

/-- Modelled from the spec: the host platform's page size, the alignment
granularity the mapper enforces. -/
def pageSize : Nat := 4096

/-- Errors surfaced by the host-side operations modelled here. -/
inductive HyperlightHostError where
  | InvalidRegionAlignment
  | SnapshotFailure (msg : String)
  deriving DecidableEq

/-- Modelled from the spec: a Sandbox — the isolated execution context
plus its memory (`mem`), the checkpoint captured before a context begins
(`snapshot`), and the host regions currently mapped into its address
space (`mappings`, recording base, length and backing: the mapper ignores
the advisory kind). -/
structure MultiUseSandbox where
  mem : GuestMem
  snapshot : GuestMem
  mappings : List (Nat × Nat × MemoryBacking)
  deriving DecidableEq

/-- Modelled from the spec: `MultiUseSandbox::restore_state` — restores
the sandbox's memory to the checkpoint captured before the context
began. -/
def MultiUseSandbox.restore_state (s : MultiUseSandbox) :
    Except HyperlightHostError MultiUseSandbox :=
  Except.ok { s with mem := s.snapshot }

/-- Modelled from the spec: `MultiUseSandbox::call_guest_function_by_name_no_reset`
— executes the named guest function against the sandbox's *current*
memory state, without resetting it first, and keeps the mutated memory. -/
def MultiUseSandbox.call_guest_function_by_name_no_reset
    (s : MultiUseSandbox) (p : GuestProgram) (func_name : String)
    (args : List ParameterValue) : MultiUseSandbox × ReturnValue :=
  let r := p.exec func_name args s.mem
  ({ s with mem := r.1 }, r.2)

/-- Modelled from the spec: `MultiUseSandbox::map_region` — enforces
page-alignment of base and length, refusing misaligned requests with an
`InvalidRegionAlignment` error; on success records the raw mapping (base,
length, backing).  The advisory `region_type` field is not interpreted
and no guest page-table entries are created for it. -/
def MultiUseSandbox.map_region (s : MultiUseSandbox) (rgn : MemoryRegion) :
    Except HyperlightHostError MultiUseSandbox :=
  if rgn.base % pageSize = 0 ∧ rgn.len % pageSize = 0 then
    Except.ok
      { s with mappings := s.mappings ++ [(rgn.base, rgn.len, rgn.backing)] }
  else Except.error HyperlightHostError.InvalidRegionAlignment

/-- `MultiUseGuestCallContext` from
`src/hyperlight_host/src/func/call_ctx.rs`: takes ownership of an
existing `MultiUseSandbox`. -/
structure MultiUseGuestCallContext where
  sbox : MultiUseSandbox
  deriving DecidableEq

/-- `MultiUseGuestCallContext::start`: take ownership of a
`MultiUseSandbox` and return a new context instance. -/
def MultiUseGuestCallContext.start (sbox : MultiUseSandbox) :
    MultiUseGuestCallContext :=
  { sbox := sbox }

/-- `MultiUseGuestCallContext::finish`: restore the sandbox's state, then
return the internally-stored `MultiUseSandbox`. -/
def MultiUseGuestCallContext.finish (c : MultiUseGuestCallContext) :
    Except HyperlightHostError MultiUseSandbox :=
  match c.sbox.restore_state with
  | Except.ok s => Except.ok s
  | Except.error e => Except.error e

/-- `MultiUseGuestCallContext::finish_no_reset`: return the
internally-stored `MultiUseSandbox` without resetting its state. -/
def MultiUseGuestCallContext.finish_no_reset
    (c : MultiUseGuestCallContext) : MultiUseSandbox :=
  c.sbox

/-- `MultiUseGuestCallContext::map_region`: delegate to the sandbox's
mapper.  The receiver is `&mut self` returning `Result<()>`, so the model
returns the (possibly unchanged) context together with the result. -/
def MultiUseGuestCallContext.map_region (c : MultiUseGuestCallContext)
    (rgn : MemoryRegion) :
    MultiUseGuestCallContext × Except HyperlightHostError Unit :=
  match c.sbox.map_region rgn with
  | Except.ok s => ({ sbox := s }, Except.ok ())
  | Except.error e => (c, Except.error e)

/-- `MultiUseGuestCallContext::call` (the `Callable` impl): call the guest
function named `func_name` with `args` through
`call_guest_function_by_name_no_reset`, so the guest state resulting from
any previous call is observable by the called function. -/
def MultiUseGuestCallContext.call (c : MultiUseGuestCallContext)
    (p : GuestProgram) (func_name : String) (args : List ParameterValue) :
    MultiUseGuestCallContext × ReturnValue :=
  let r := c.sbox.call_guest_function_by_name_no_reset p func_name args
  ({ sbox := r.1 }, r.2)

/-- A batch of calls issued through one context, in order, discarding the
return values: the context threaded from call to call. -/
def applyCalls (p : GuestProgram)
    (calls : List (String × List ParameterValue))
    (c : MultiUseGuestCallContext) : MultiUseGuestCallContext :=
  calls.foldl (fun acc q => (acc.call p q.1 q.2).1) c

/-- Classifier for the dispatch result: does it carry a
`ParameterTypeMismatch` error? -/
def isParameterTypeMismatch :
    Except HyperlightGuestError (List Nat) → Bool
  | Except.error e => e.kind == ErrorCode.ParameterTypeMismatch
  | Except.ok _ => false

/-! ## Concrete fixtures used to evaluate the definitions -/

/-- A sample registered definition: `foo(Int) -> Int` at address 17. -/
def fooDef : GuestFunctionDefinition :=
  GuestFunctionDefinition.new "foo" [ParameterType.Int] ReturnType.Int 17

/-- Environment with `foo` registered, successful envelope conversion, an
invocation that reports the invoked address, and a null fallback. -/
def envMismatch : DispatchEnv :=
  { registry := GuestFunctionRegister.new.register fooDef
    from_function_call := fun q => some { payload := q }
    call_fn := fun fp _ => [fp]
    c_guest_dispatch_function := fun _ => none }

/-- A call of `foo` with a `Bool` argument, mismatching `foo(Int)`. -/
def fcMismatch : FunctionCall :=
  { function_name := "foo", parameters := some [ParameterValue.Bool true],
    expected_return_type := ReturnType.Int }

/-- Environment with an empty registry and a failing envelope
conversion. -/
def envDecodeFail : DispatchEnv :=
  { registry := GuestFunctionRegister.new
    from_function_call := fun _ => none
    call_fn := fun _ _ => []
    c_guest_dispatch_function := fun _ => none }

/-- A call of the unregistered name `bar`. -/
def fcBar : FunctionCall :=
  { function_name := "bar", parameters := none,
    expected_return_type := ReturnType.Void }

/-- Host-call environment whose host call always fails. -/
def envHostFail : HostCallEnv :=
  { call_host_function_without_returning_result :=
      fun _ _ _ => Except.error "host rejected the call" }

/-- The C-ABI form of `fcBar`. -/
def ffiBar : FfiFunctionCall := { payload := fcBar }

/-- Environment with an empty registry, successful conversion, and a null
fallback. -/
def envFallbackNone : DispatchEnv :=
  { registry := GuestFunctionRegister.new
    from_function_call := fun q => some { payload := q }
    call_fn := fun _ _ => []
    c_guest_dispatch_function := fun _ => none }

/-- Environment with an empty registry, successful conversion, and a
fallback that resolves every call to the bytes `[5]`. -/
def envFallbackSome : DispatchEnv :=
  { registry := GuestFunctionRegister.new
    from_function_call := fun q => some { payload := q }
    call_fn := fun _ _ => []
    c_guest_dispatch_function := fun _ => some [5] }

/-- Environment whose registry saw two registrations of `foo`: first
`foo(Int) -> Int` at 17, then `foo(Bool) -> Bool` at 23. -/
def envTwice : DispatchEnv :=
  { registry :=
      hl_register_function_definition
        (hl_register_function_definition GuestFunctionRegister.new "foo" 17
          [ParameterType.Int] ReturnType.Int)
        "foo" 23 [ParameterType.Bool] ReturnType.Bool
    from_function_call := fun q => some { payload := q }
    call_fn := fun fp _ => [fp]
    c_guest_dispatch_function := fun _ => none }

/-- A call of `foo` with a `Bool` argument, matching the second
registration of `foo`. -/
def fcLastWins : FunctionCall :=
  { function_name := "foo", parameters := some [ParameterValue.Bool true],
    expected_return_type := ReturnType.Bool }

/-! ## Helper lemmas -/

lemma sandbox_eq (a b : MultiUseSandbox) (h1 : a.mem = b.mem)
    (h2 : a.snapshot = b.snapshot) (h3 : a.mappings = b.mappings) :
    a = b := by
  cases a
  cases b
  simp only at h1 h2 h3
  subst h1
  subst h2
  subst h3
  rfl

lemma guest_dispatch_of_get_some (env : DispatchEnv) (fc : FunctionCall)
    (d : GuestFunctionDefinition)
    (h : env.registry.get fc.function_name = some d) :
    guest_dispatch_function env fc = dispatchRegistered env fc d := by
  unfold guest_dispatch_function
  rw [h]

lemma guest_dispatch_of_get_none (env : DispatchEnv) (fc : FunctionCall)
    (h : env.registry.get fc.function_name = none) :
    guest_dispatch_function env fc = dispatchFallback env fc := by
  unfold guest_dispatch_function
  rw [h]

lemma dispatchRegistered_of_mismatch (env : DispatchEnv)
    (fc : FunctionCall) (d : GuestFunctionDefinition)
    (hne : d.parameter_types ≠
      (fc.parameters.getD []).map ParameterValue.paramType) :
    dispatchRegistered env fc d =
      (Except.error (HyperlightGuestError.new ErrorCode.ParameterTypeMismatch
          (mismatchMessage d.parameter_types
            ((fc.parameters.getD []).map ParameterValue.paramType))),
        [DispatchEvent.lookup fc.function_name, DispatchEvent.verify]) := by
  simp [dispatchRegistered, GuestFunctionDefinition.verify_parameters, hne]

lemma dispatchRegistered_of_match_some (env : DispatchEnv)
    (fc : FunctionCall) (d : GuestFunctionDefinition)
    (ffi : FfiFunctionCall)
    (heq : d.parameter_types =
      (fc.parameters.getD []).map ParameterValue.paramType)
    (hdec : env.from_function_call fc = some ffi) :
    dispatchRegistered env fc d =
      (Except.ok (env.call_fn d.function_pointer ffi),
        [DispatchEvent.lookup fc.function_name, DispatchEvent.verify,
          DispatchEvent.decode, DispatchEvent.invoke d.function_pointer]) := by
  simp [dispatchRegistered, GuestFunctionDefinition.verify_parameters, heq,
    hdec]

lemma dispatchRegistered_of_match_none (env : DispatchEnv)
    (fc : FunctionCall) (d : GuestFunctionDefinition)
    (heq : d.parameter_types =
      (fc.parameters.getD []).map ParameterValue.paramType)
    (hdec : env.from_function_call fc = none) :
    dispatchRegistered env fc d =
      (Except.error decodeError,
        [DispatchEvent.lookup fc.function_name, DispatchEvent.verify,
          DispatchEvent.decode]) := by
  simp [dispatchRegistered, GuestFunctionDefinition.verify_parameters, heq,
    hdec]

lemma dispatchFallback_of_decode_none (env : DispatchEnv)
    (fc : FunctionCall) (hdec : env.from_function_call fc = none) :
    dispatchFallback env fc =
      (Except.error decodeError,
        [DispatchEvent.lookup fc.function_name, DispatchEvent.decode]) := by
  simp [dispatchFallback, hdec]

lemma dispatchFallback_of_decode_some (env : DispatchEnv)
    (fc : FunctionCall) (ffi : FfiFunctionCall)
    (hdec : env.from_function_call fc = some ffi) :
    dispatchFallback env fc =
      ((env.c_guest_dispatch_function ffi).elim
          (Except.error
            (HyperlightGuestError.new ErrorCode.GuestFunctionNotFound
              fc.function_name))
          Except.ok,
        [DispatchEvent.lookup fc.function_name, DispatchEvent.decode,
          DispatchEvent.fallback_invoke]) := by
  simp only [dispatchFallback, hdec]
  cases env.c_guest_dispatch_function ffi <;> rfl

lemma get_register_self (r : GuestFunctionRegister)
    (d : GuestFunctionDefinition) :
    (r.register d).get d.function_name = some d := by
  unfold GuestFunctionRegister.get GuestFunctionRegister.register
  rw [List.find?_cons_of_pos]
  · rfl
  · simp

lemma find?_filter_of_ne (l : List (String × GuestFunctionDefinition))
    (name dn : String) (h : name ≠ dn) :
    (l.filter (fun p => p.1 != dn)).find? (fun p => p.1 == name) =
      l.find? (fun p => p.1 == name) := by
  induction l with
  | nil => rfl
  | cons a l ih =>
    by_cases hd : a.1 = dn
    · have hn : (dn == name) = false := by
        simp
        exact fun hh => h hh.symm
      simp [List.filter_cons, hd, List.find?_cons, hn, ih]
    · have ht : (a.1 != dn) = true := by simp [hd]
      simp [List.filter_cons, ht, List.find?_cons, ih]

lemma get_register_of_ne (r : GuestFunctionRegister)
    (d : GuestFunctionDefinition) (name : String)
    (h : name ≠ d.function_name) :
    (r.register d).get name = r.get name := by
  unfold GuestFunctionRegister.get GuestFunctionRegister.register
  rw [List.find?_cons_of_neg, find?_filter_of_ne _ _ _ h]
  simp
  exact fun hh => h hh.symm

lemma applyCalls_nil (p : GuestProgram) (c : MultiUseGuestCallContext) :
    applyCalls p [] c = c := rfl

lemma applyCalls_cons (p : GuestProgram) (q : String × List ParameterValue)
    (calls : List (String × List ParameterValue))
    (c : MultiUseGuestCallContext) :
    applyCalls p (q :: calls) c = applyCalls p calls ((c.call p q.1 q.2).1) :=
  rfl

lemma applyCalls_snapshot (p : GuestProgram)
    (calls : List (String × List ParameterValue)) :
    ∀ c : MultiUseGuestCallContext,
      (applyCalls p calls c).sbox.snapshot = c.sbox.snapshot := by
  induction calls with
  | nil => intro c; rfl
  | cons q calls ih =>
    intro c
    rw [applyCalls_cons, ih]
    rfl

lemma applyCalls_mappings (p : GuestProgram)
    (calls : List (String × List ParameterValue)) :
    ∀ c : MultiUseGuestCallContext,
      (applyCalls p calls c).sbox.mappings = c.sbox.mappings := by
  induction calls with
  | nil => intro c; rfl
  | cons q calls ih =>
    intro c
    rw [applyCalls_cons, ih]
    rfl

lemma applyCalls_mem (p : GuestProgram)
    (calls : List (String × List ParameterValue)) :
    ∀ c : MultiUseGuestCallContext,
      (applyCalls p calls c).sbox.mem =
        calls.foldl (fun m q => (p.exec q.1 q.2 m).1) c.sbox.mem := by
  induction calls with
  | nil => intro c; rfl
  | cons q calls ih =>
    intro c
    rw [applyCalls_cons, ih, List.foldl_cons]
    rfl

/-! ## Claim theorems -/

/-- C1: for every incoming call whose function name is registered, if the
envelope's parameter type sequence does not exactly match the registered
signature's parameter types, `guest_dispatch_function` returns a
`ParameterTypeMismatch` error identifying the expected vs. received
types, and the event trace consists of the lookup and the verification
only: the target function body is never invoked (no `invoke` event, and
no fallback runs either), so no observable side effect of the target
occurs. -/
theorem dispatch_mismatch_never_invokes (env : DispatchEnv)
    (fc : FunctionCall) (d : GuestFunctionDefinition)
    (hreg : env.registry.get fc.function_name = some d)
    (hne : d.parameter_types ≠
      (fc.parameters.getD []).map ParameterValue.paramType) :
    guest_dispatch_function env fc =
      (Except.error (HyperlightGuestError.new ErrorCode.ParameterTypeMismatch
          (mismatchMessage d.parameter_types
            ((fc.parameters.getD []).map ParameterValue.paramType))),
        [DispatchEvent.lookup fc.function_name, DispatchEvent.verify]) := by
  rw [guest_dispatch_of_get_some env fc d hreg,
    dispatchRegistered_of_mismatch env fc d hne]

/-- Witness for C1: calling registered `foo(Int)` with a `Bool` argument
yields the mismatch error and a trace without any invocation. -/
theorem dispatch_mismatch_never_invokes_witness :
    guest_dispatch_function envMismatch fcMismatch =
      (Except.error (HyperlightGuestError.new ErrorCode.ParameterTypeMismatch
          (mismatchMessage [ParameterType.Int] [ParameterType.Bool])),
        [DispatchEvent.lookup "foo", DispatchEvent.verify]) :=
  dispatch_mismatch_never_invokes envMismatch fcMismatch fooDef (by decide)
    (by decide)

/-- C2 counterexample: a call whose envelope fails to convert does fail
with the decode error, but the event trace shows the registry lookup
happened (first, before the conversion was even attempted) — refuting the
claim's "no registry lookup occurred before the decode failure was
detected". -/
theorem dispatch_decode_lookup_counterexample :
    (guest_dispatch_function envDecodeFail fcBar).1 =
      Except.error decodeError ∧
    (guest_dispatch_function envDecodeFail fcBar).2 =
      [DispatchEvent.lookup "bar", DispatchEvent.decode] := by
  constructor
  · rfl
  · rfl

/-- C2 (amended): for every incoming call whose envelope fails to convert
— provided that, for a registered name, parameter verification passes
(verification precedes conversion in the registered arm) —
`guest_dispatch_function` returns the `CallEnvelopeDecodeError` and no
function (registered or fallback) is invoked; the registry lookup,
however, does occur before the decode failure is detected, as the traces
show. -/
theorem dispatch_decode_error_no_invoke (env : DispatchEnv)
    (fc : FunctionCall)
    (hdec : env.from_function_call fc = none)
    (hver : ∀ d, env.registry.get fc.function_name = some d →
      d.parameter_types =
        (fc.parameters.getD []).map ParameterValue.paramType) :
    (guest_dispatch_function env fc).1 = Except.error decodeError ∧
    ((guest_dispatch_function env fc).2 =
        [DispatchEvent.lookup fc.function_name, DispatchEvent.decode] ∨
      (guest_dispatch_function env fc).2 =
        [DispatchEvent.lookup fc.function_name, DispatchEvent.verify,
          DispatchEvent.decode]) := by
  cases hg : env.registry.get fc.function_name with
  | none =>
    rw [guest_dispatch_of_get_none env fc hg,
      dispatchFallback_of_decode_none env fc hdec]
    exact ⟨rfl, Or.inl rfl⟩
  | some d =>
    rw [guest_dispatch_of_get_some env fc d hg,
      dispatchRegistered_of_match_none env fc d (hver d hg) hdec]
    exact ⟨rfl, Or.inr rfl⟩

/-- Witness for C2 (amended): with an empty registry and a failing
conversion, dispatching `bar` yields the decode error and the
lookup-then-decode trace. -/
theorem dispatch_decode_error_no_invoke_witness :
    (guest_dispatch_function envDecodeFail fcBar).1 =
      Except.error decodeError ∧
    ((guest_dispatch_function envDecodeFail fcBar).2 =
        [DispatchEvent.lookup "bar", DispatchEvent.decode] ∨
      (guest_dispatch_function envDecodeFail fcBar).2 =
        [DispatchEvent.lookup "bar", DispatchEvent.verify,
          DispatchEvent.decode]) :=
  dispatch_decode_error_no_invoke envDecodeFail fcBar rfl
    (fun _ h => nomatch h)

/-- C3 counterexample: when the underlying host call fails,
`hl_call_host_function` does not hand the error back to its caller — it
aborts the program (the source's `.expect("Failed to call host
function")`), refuting "the error is returned as a typed result to the
immediate caller rather than being swallowed or aborting the program". -/
theorem hl_call_host_function_counterexample :
    hl_call_host_function envHostFail ffiBar =
      FfiCallOutcome.aborted "Failed to call host function" ∧
    hl_call_host_function envHostFail ffiBar ≠ FfiCallOutcome.returned := by
  constructor
  · rfl
  · intro h
    exact FfiCallOutcome.noConfusion h

/-- C3 (amended): for every invocation of `hl_call_host_function`, if the
underlying host call fails, the function aborts the program with the
panic message "Failed to call host function" instead of returning the
error to the immediate caller (its C ABI returns no value; the typed
result is fetched afterward through separate accessors). -/
theorem hl_call_host_function_aborts_on_failure (env : HostCallEnv)
    (fc : FfiFunctionCall) (msg : String)
    (h : env.call_host_function_without_returning_result
        fc.copy_function_name (some fc.copy_parameters)
        fc.copy_return_type = Except.error msg) :
    hl_call_host_function env fc =
      FfiCallOutcome.aborted "Failed to call host function" := by
  simp only [hl_call_host_function]
  rw [h]

/-- Witness for C3 (amended): the always-failing host environment makes
`hl_call_host_function` abort. -/
theorem hl_call_host_function_aborts_on_failure_witness :
    hl_call_host_function envHostFail ffiBar =
      FfiCallOutcome.aborted "Failed to call host function" :=
  hl_call_host_function_aborts_on_failure envHostFail ffiBar
    "host rejected the call" rfl

/-- C4: for every incoming call whose function name is absent from the
registry and whose envelope converts, the envelope is handed to the
fallback; a null fallback result becomes a `GuestFunctionNotFound` error
carrying exactly the requested function name, and a non-null fallback
result is returned as-is. -/
theorem dispatch_unregistered_fallback (env : DispatchEnv)
    (fc : FunctionCall) (ffi : FfiFunctionCall)
    (hreg : env.registry.get fc.function_name = none)
    (hdec : env.from_function_call fc = some ffi) :
    guest_dispatch_function env fc =
      ((env.c_guest_dispatch_function ffi).elim
          (Except.error
            (HyperlightGuestError.new ErrorCode.GuestFunctionNotFound
              fc.function_name))
          Except.ok,
        [DispatchEvent.lookup fc.function_name, DispatchEvent.decode,
          DispatchEvent.fallback_invoke]) := by
  rw [guest_dispatch_of_get_none env fc hreg,
    dispatchFallback_of_decode_some env fc ffi hdec]

/-- Witness for C4: dispatching unregistered `bar` with a null fallback
yields `GuestFunctionNotFound` carrying `"bar"`. -/
theorem dispatch_unregistered_fallback_witness :
    guest_dispatch_function envFallbackNone fcBar =
      (Except.error
          (HyperlightGuestError.new ErrorCode.GuestFunctionNotFound "bar"),
        [DispatchEvent.lookup "bar", DispatchEvent.decode,
          DispatchEvent.fallback_invoke]) :=
  dispatch_unregistered_fallback envFallbackNone fcBar
    { payload := fcBar } rfl rfl

/-- C5: for every `MultiUseGuestCallContext` opened by `start` from a
sandbox `s`, after any batch of calls, `finish` restores the sandbox's
memory to the checkpoint `s.snapshot` captured before the context began
and returns the sandbox handle: all memory mutations made by the calls
are discarded. -/
theorem finish_restores_checkpoint (p : GuestProgram)
    (s : MultiUseSandbox)
    (calls : List (String × List ParameterValue)) :
    (applyCalls p calls (MultiUseGuestCallContext.start s)).finish =
      Except.ok { s with mem := s.snapshot } := by
  simp only [MultiUseGuestCallContext.finish, MultiUseSandbox.restore_state]
  congr 1
  exact sandbox_eq _ _ (applyCalls_snapshot p calls _)
    (applyCalls_snapshot p calls _) (applyCalls_mappings p calls _)

/-- C6: calls made through one `MultiUseGuestCallContext` execute against
the sandbox's *current* memory state without resetting it first: a call
runs the guest program on the context's current memory, its mutated
memory becomes the context's new memory (the snapshot is untouched), and
the next call in sequence observes exactly the memory mutated by the
previous call. -/
theorem call_observes_prior_mutation (p : GuestProgram)
    (c : MultiUseGuestCallContext) (n1 : String)
    (a1 : List ParameterValue) (n2 : String) (a2 : List ParameterValue) :
    (c.call p n1 a1).2 = (p.exec n1 a1 c.sbox.mem).2 ∧
    (c.call p n1 a1).1.sbox.mem = (p.exec n1 a1 c.sbox.mem).1 ∧
    (c.call p n1 a1).1.sbox.snapshot = c.sbox.snapshot ∧
    ((c.call p n1 a1).1.call p n2 a2).2 =
      (p.exec n2 a2 (p.exec n1 a1 c.sbox.mem).1).2 :=
  ⟨rfl, rfl, rfl, rfl⟩

/-- C7: `finish_no_reset` performs no restore and no other mutation:
ending a freshly started context returns the sandbox unchanged
(`finish_no_reset (start s) = s`), and after a batch of calls it returns
the sandbox with all memory mutations retained as the new baseline (its
memory is the fold of the executed calls over the original memory, with
snapshot and mappings untouched). -/
theorem finish_no_reset_round_trip (p : GuestProgram)
    (s : MultiUseSandbox)
    (calls : List (String × List ParameterValue)) :
    (MultiUseGuestCallContext.start s).finish_no_reset = s ∧
    (applyCalls p calls (MultiUseGuestCallContext.start s)).finish_no_reset =
      { s with
          mem := calls.foldl (fun m q => (p.exec q.1 q.2 m).1) s.mem } := by
  refine ⟨rfl, ?_⟩
  exact sandbox_eq _ _ (applyCalls_mem p calls _)
    (applyCalls_snapshot p calls _) (applyCalls_mappings p calls _)

/-- C8: two `map_region` requests on the same context that differ only in
the region's advisory `region_type` field have identical outcomes: the
kind is ignored by the mapper, so the resulting context (hence the
guest-visible mapping) and the success or failure of the request are the
same. -/
theorem map_region_ignores_kind (c : MultiUseGuestCallContext)
    (rgn : MemoryRegion) (k1 k2 : MemoryRegionType) :
    c.map_region { rgn with region_type := k1 } =
      c.map_region { rgn with region_type := k2 } :=
  rfl

/-- C9: `hl_register_function_definition` inserts the definition built
from the given name, parameter types, return type and address,
overwriting any prior entry with the same name without ever raising a
duplicate-name error (registration is total): after two registrations of
the same name, lookup yields the second definition, entries under other
names are untouched, and a subsequent dispatch of that name invokes the
most recently registered address (last registration wins). -/
theorem register_overwrites_last_wins (reg : GuestFunctionRegister)
    (name other : String) (ptr1 ptr2 : Nat)
    (params1 params2 : List ParameterType) (ret1 ret2 : ReturnType)
    (env : DispatchEnv) (fc : FunctionCall) (ffi : FfiFunctionCall)
    (hother : other ≠ name)
    (henv : env.registry =
      hl_register_function_definition
        (hl_register_function_definition reg name ptr1 params1 ret1)
        name ptr2 params2 ret2)
    (hname : fc.function_name = name)
    (htypes : (fc.parameters.getD []).map ParameterValue.paramType = params2)
    (hdec : env.from_function_call fc = some ffi) :
    env.registry.get name =
      some (GuestFunctionDefinition.new name params2 ret2 ptr2) ∧
    env.registry.get other = reg.get other ∧
    guest_dispatch_function env fc =
      (Except.ok (env.call_fn ptr2 ffi),
        [DispatchEvent.lookup name, DispatchEvent.verify,
          DispatchEvent.decode, DispatchEvent.invoke ptr2]) := by
  subst hname
  have hget : env.registry.get fc.function_name =
      some (GuestFunctionDefinition.new fc.function_name params2 ret2 ptr2) := by
    rw [henv]
    exact get_register_self _ _
  refine ⟨hget, ?_, ?_⟩
  · rw [henv]
    unfold hl_register_function_definition
    rw [get_register_of_ne _ _ _ hother, get_register_of_ne _ _ _ hother]
  · rw [guest_dispatch_of_get_some env fc _ hget,
      dispatchRegistered_of_match_some env fc _ ffi htypes.symm hdec]
    rfl

/-- Witness for C9: after registering `foo(Int) -> Int` at 17 and then
`foo(Bool) -> Bool` at 23, lookup of `foo` yields the second definition,
`bar` is untouched, and dispatching `foo(Bool)` invokes address 23. -/
theorem register_overwrites_last_wins_witness :
    envTwice.registry.get "foo" =
      some (GuestFunctionDefinition.new "foo" [ParameterType.Bool]
        ReturnType.Bool 23) ∧
    envTwice.registry.get "bar" = GuestFunctionRegister.new.get "bar" ∧
    guest_dispatch_function envTwice fcLastWins =
      (Except.ok [23],
        [DispatchEvent.lookup "foo", DispatchEvent.verify,
          DispatchEvent.decode, DispatchEvent.invoke 23]) :=
  register_overwrites_last_wins GuestFunctionRegister.new "foo" "bar" 17 23
    [ParameterType.Int] [ParameterType.Bool] ReturnType.Int ReturnType.Bool
    envTwice fcLastWins { payload := fcLastWins } (by decide) rfl rfl rfl rfl

/-- C10: for every incoming call whose function name is not in the
registry, no parameter-type verification happens (no `verify` event), the
result is never a `ParameterTypeMismatch` error, and whenever the
envelope converts the call reaches the fallback handler regardless of
its parameter types. -/
theorem dispatch_unregistered_skips_verification (env : DispatchEnv)
    (fc : FunctionCall)
    (hreg : env.registry.get fc.function_name = none) :
    isParameterTypeMismatch (guest_dispatch_function env fc).1 = false ∧
    DispatchEvent.verify ∉ (guest_dispatch_function env fc).2 ∧
    ((env.from_function_call fc).isSome = true →
      DispatchEvent.fallback_invoke ∈ (guest_dispatch_function env fc).2) := by
  rw [guest_dispatch_of_get_none env fc hreg]
  cases hdec : env.from_function_call fc with
  | none =>
    rw [dispatchFallback_of_decode_none env fc hdec]
    refine ⟨rfl, ?_, ?_⟩
    · simp
    · intro h
      simp at h
  | some ffi =>
    rw [dispatchFallback_of_decode_some env fc ffi hdec]
    refine ⟨?_, ?_, ?_⟩
    · cases env.c_guest_dispatch_function ffi with
      | none => rfl
      | some bytes => rfl
    · simp
    · intro _
      simp

/-- Witness for C10: dispatching unregistered `bar` through a resolving
fallback is not a type mismatch, never verifies, and reaches the
fallback. -/
theorem dispatch_unregistered_skips_verification_witness :
    isParameterTypeMismatch
        (guest_dispatch_function envFallbackSome fcBar).1 = false ∧
    DispatchEvent.verify ∉ (guest_dispatch_function envFallbackSome fcBar).2 ∧
    ((envFallbackSome.from_function_call fcBar).isSome = true →
      DispatchEvent.fallback_invoke ∈
        (guest_dispatch_function envFallbackSome fcBar).2) :=
  dispatch_unregistered_skips_verification envFallbackSome fcBar rfl

end Hyperlight
